import Mathlib

/-!
Verification of the core of the stock-portfolio-tracker backend.

The development shallowly embeds the price-simulation engine
(`app/utils/price_simulator.py`), the metrics calculator and portfolio
routes (`app/routes/portfolio.py`), and the token service and
authorization gate (`app/auth.py`, `app/routes/auth.py`).  Python floats
are modelled as exact rationals (ℚ); `round(x, 2)` is modelled as
rounding `x * 100` to the nearest integer.  The MD5 digest used by the
price simulator is implemented in full (RFC 1321, the algorithm behind
`hashlib.md5`) so that the hash-to-fraction construction is bit-faithful.
-/

set_option maxRecDepth 100000

namespace Portfolio

/-! ### Byte, hex and decimal-string utilities -/

/-- UTF-8 encoding of a single character (RFC 3629), as `str.encode()` does. -/
def utf8EncodeChar (c : Char) : List Nat :=
  let n := c.toNat
  if n < 128 then [n]
  else if n < 2048 then [192 ||| (n >>> 6), 128 ||| (n &&& 63)]
  else if n < 65536 then
    [224 ||| (n >>> 12), 128 ||| ((n >>> 6) &&& 63), 128 ||| (n &&& 63)]
  else
    [240 ||| (n >>> 18), 128 ||| ((n >>> 12) &&& 63),
     128 ||| ((n >>> 6) &&& 63), 128 ||| (n &&& 63)]

/-- UTF-8 bytes of a string, as Python's `s.encode()`. -/
def utf8Bytes (s : String) : List Nat :=
  (s.data.map utf8EncodeChar).flatten

/-- Lowercase hexadecimal digit for a value `0 ≤ n < 16`. -/
def hexDigitChar (n : Nat) : Char :=
  if n < 10 then Char.ofNat (48 + n) else Char.ofNat (87 + n)

/-- Two lowercase hex characters of one byte. -/
def byteToHex (b : Nat) : List Char :=
  [hexDigitChar (b / 16), hexDigitChar (b % 16)]

/-- Lowercase hex string of a byte list, as `hashlib`'s `hexdigest()`. -/
def bytesToHex (bs : List Nat) : String :=
  String.mk ((bs.map byteToHex).flatten)

/-- Numeric value of one hex character (lowercase letters). -/
def hexCharVal (c : Char) : Nat :=
  if 97 ≤ c.toNat then c.toNat - 87 else c.toNat - 48

/-- Value of a hex string, as Python's `int(s, 16)` on lowercase input. -/
def parseHex (s : String) : Nat :=
  s.data.foldl (fun a c => a * 16 + hexCharVal c) 0

/-- Decimal digit character. -/
def decDigitChar (n : Nat) : Char := Char.ofNat (48 + n % 10)

/-- Decimal digits of `n`, most significant first, with `fuel` bounding recursion. -/
def natDigits : Nat → Nat → List Char
  | 0, _ => []
  | fuel + 1, n =>
      if n < 10 then [decDigitChar n]
      else natDigits fuel (n / 10) ++ [decDigitChar (n % 10)]

/-- Decimal rendering of a natural number, as Python's `str(n)`. -/
def natToString (n : Nat) : String := String.mk (natDigits (n + 1) n)

/-- Decimal rendering of an integer, as Python's `str(n)`. -/
def intToString (n : Int) : String :=
  if n < 0 then "-" ++ natToString n.natAbs else natToString n.toNat

/-! ### MD5 (RFC 1321), the digest behind `hashlib.md5` -/

namespace MD5

/-- 2^32, the word modulus. -/
def w32 : Nat := 4294967296

/-- Per-operation left-rotation amounts. -/
def shifts : List Nat :=
  [7, 12, 17, 22, 7, 12, 17, 22, 7, 12, 17, 22, 7, 12, 17, 22,
   5, 9, 14, 20, 5, 9, 14, 20, 5, 9, 14, 20, 5, 9, 14, 20,
   4, 11, 16, 23, 4, 11, 16, 23, 4, 11, 16, 23, 4, 11, 16, 23,
   6, 10, 15, 21, 6, 10, 15, 21, 6, 10, 15, 21, 6, 10, 15, 21]

/-- Per-operation additive constants, `⌊2^32·|sin(i+1)|⌋`. -/
def sines : List Nat :=
  [0xd76aa478, 0xe8c7b756, 0x242070db, 0xc1bdceee,
   0xf57c0faf, 0x4787c62a, 0xa8304613, 0xfd469501,
   0x698098d8, 0x8b44f7af, 0xffff5bb1, 0x895cd7be,
   0x6b901122, 0xfd987193, 0xa679438e, 0x49b40821,
   0xf61e2562, 0xc040b340, 0x265e5a51, 0xe9b6c7aa,
   0xd62f105d, 0x02441453, 0xd8a1e681, 0xe7d3fbc8,
   0x21e1cde6, 0xc33707d6, 0xf4d50d87, 0x455a14ed,
   0xa9e3e905, 0xfcefa3f8, 0x676f02d9, 0x8d2a4c8a,
   0xfffa3942, 0x8771f681, 0x6d9d6122, 0xfde5380c,
   0xa4beea44, 0x4bdecfa9, 0xf6bb4b60, 0xbebfbc70,
   0x289b7ec6, 0xeaa127fa, 0xd4ef3085, 0x04881d05,
   0xd9d4d039, 0xe6db99e5, 0x1fa27cf8, 0xc4ac5665,
   0xf4292244, 0x432aff97, 0xab9423a7, 0xfc93a039,
   0x655b59c3, 0x8f0ccc92, 0xffeff47d, 0x85845dd1,
   0x6fa87e4f, 0xfe2ce6e0, 0xa3014314, 0x4e0811a1,
   0xf7537e82, 0xbd3af235, 0x2ad7d2bb, 0xeb86d391]

/-- Left rotation of a 32-bit word. -/
def lrot (x n : Nat) : Nat := ((x <<< n) ||| (x >>> (32 - n))) % w32

/-- The four running 32-bit words of the digest state. -/
structure St where
  a : Nat
  b : Nat
  c : Nat
  d : Nat
deriving DecidableEq

/-- Initial digest state. -/
def initSt : St := ⟨0x67452301, 0xefcdab89, 0x98badcfe, 0x10325476⟩

/-- The sixteen little-endian 32-bit words of one 64-byte chunk. -/
def chunkWords (chunk : List Nat) : List Nat :=
  (List.range 16).map fun j =>
    chunk.getD (4 * j) 0 + 256 * chunk.getD (4 * j + 1) 0 +
      65536 * chunk.getD (4 * j + 2) 0 + 16777216 * chunk.getD (4 * j + 3) 0

/-- One of the 64 mixing operations applied to the state. -/
def mixRound (ws : List Nat) (st : St) (i : Nat) : St :=
  let fg : Nat × Nat :=
    if i < 16 then
      ((st.b &&& st.c) ||| ((st.b ^^^ 4294967295) &&& st.d), i)
    else if i < 32 then
      ((st.d &&& st.b) ||| ((st.d ^^^ 4294967295) &&& st.c), (5 * i + 1) % 16)
    else if i < 48 then
      (st.b ^^^ st.c ^^^ st.d, (3 * i + 5) % 16)
    else
      (st.c ^^^ (st.b ||| (st.d ^^^ 4294967295)), (7 * i) % 16)
  let f := (fg.1 + st.a + sines.getD i 0 + ws.getD fg.2 0) % w32
  ⟨st.d, (st.b + lrot f (shifts.getD i 0)) % w32, st.b, st.c⟩

/-- Fold the 64 mixing operations over one chunk and add into the state,
    consuming 64 bytes per step; `fuel` bounds the recursion. -/
def processChunks : Nat → List Nat → St → St
  | 0, _, st => st
  | _ + 1, [], st => st
  | fuel + 1, bytes, st =>
      let ws := chunkWords (bytes.take 64)
      let r := (List.range 64).foldl (mixRound ws) st
      processChunks fuel (bytes.drop 64)
        ⟨(st.a + r.a) % w32, (st.b + r.b) % w32,
         (st.c + r.c) % w32, (st.d + r.d) % w32⟩

/-- MD5 padding: a 1-bit, zeros to 56 mod 64 bytes, then the 64-bit
    little-endian bit length. -/
def padded (msg : List Nat) : List Nat :=
  let len := msg.length
  let zeros := (119 - len % 64) % 64
  msg ++ [128] ++ List.replicate zeros 0 ++
    (List.range 8).map fun i => ((len * 8) >>> (8 * i)) % 256

/-- The sixteen digest bytes (state words serialized little-endian). -/
def wordBytesLE (w : Nat) : List Nat :=
  [w % 256, (w >>> 8) % 256, (w >>> 16) % 256, (w >>> 24) % 256]

/-- MD5 digest of a byte list. -/
def digestBytes (msg : List Nat) : List Nat :=
  let p := padded msg
  let st := processChunks (p.length / 64 + 1) p initSt
  wordBytesLE st.a ++ wordBytesLE st.b ++ wordBytesLE st.c ++ wordBytesLE st.d

/-- MD5 hex digest of a byte list, as `hashlib.md5(x).hexdigest()`. -/
def hexdigest (msg : List Nat) : String := bytesToHex (digestBytes msg)

end MD5

/-! ### Two-decimal rounding, Python's `round(x, 2)` on exact values -/

/-- Rounding to two decimal places.  Python rounds binary floats half to
    even; on exact rationals we round `x * 100` to the nearest integer.
    The spec leaves half-tie behaviour unspecified, so nothing below
    depends on the tie direction. -/
def round2 (x : ℚ) : ℚ := ((round (x * 100) : ℤ) : ℚ) / 100

/-! ### Price simulator (`app/utils/price_simulator.py`)

The source reads `time.time()`; the embedding passes the current Unix
time in seconds as the explicit argument `now`. -/

/-- Line 49: `current_hour = int(time.time() // 3600)`. -/
def current_hour (now : Nat) : Nat := now / 3600

/-- Line 50: `seed_string = f"{stock_name}_{current_hour}"`. -/
def seed_string (stock_name : String) (hour : Nat) : String :=
  stock_name ++ "_" ++ natToString hour

/-- Lines 53-54: hex digest of the MD5 hash of the seed string. -/
def hash_hex (stock_name : String) (hour : Nat) : String :=
  MD5.hexdigest (utf8Bytes (seed_string stock_name hour))

/-- Line 57: `hash_int = int(hash_hex[:8], 16)`. -/
def hash_int (stock_name : String) (hour : Nat) : Nat :=
  parseHex ((hash_hex stock_name hour).take 8)

/-- Line 58: `random_factor = (hash_int % 10000) / 10000.0`. -/
def random_factor (stock_name : String) (hour : Nat) : ℚ :=
  ((hash_int stock_name hour % 10000 : Nat) : ℚ) / 10000

/-- Line 62: `variation_percent = (random_factor - 0.5) * 0.10`. -/
def variation_percent (stock_name : String) (hour : Nat) : ℚ :=
  (random_factor stock_name hour - 0.5) * 0.10

/-- Lines 42-72 of `simulate_stock_price`: guard on non-positive input,
    simulated price from the hourly variation, positivity fallback,
    rounding to two decimals. -/
def simulate_stock_price (stock_name : String) (now : Nat) (buy_price : ℚ) : ℚ :=
  if buy_price ≤ 0 then buy_price
  else
    let simulated_price := buy_price * (1 + variation_percent stock_name (current_hour now))
    round2 (if simulated_price ≤ 0 then buy_price else simulated_price)

/-- Follows the spec's words only (for the refinement claim about the
    hash-to-fraction construction): "taking the first 8 hex characters of
    the digest as an unsigned integer, modulo 10000, divided by 10000.0",
    the digest being MD5 "applied to the UTF-8 bytes of
    `"{instrument_name}_{hour_bucket}"`". -/
def spec_fraction (instrument_name : String) (hour_bucket : Nat) : ℚ :=
  ((parseHex ((MD5.hexdigest (utf8Bytes
      (instrument_name ++ "_" ++ natToString hour_bucket))).take 8) % 10000 : Nat) : ℚ)
    / 10000

/-- Follows the spec's words only: `variation = (fraction - 0.5) * 0.10`. -/
def spec_variation (instrument_name : String) (hour_bucket : Nat) : ℚ :=
  (spec_fraction instrument_name hour_bucket - 0.5) * 0.10

/-! ### Metrics calculator (`app/routes/portfolio.py`, lines 26-48) -/

/-- The dictionary returned by `calculate_stock_metrics`. -/
structure StockMetrics where
  total_invested : ℚ
  current_value : ℚ
  profit_loss : ℚ
  profit_loss_percentage : ℚ
deriving DecidableEq

/-- Lines 38-48: the four derived metrics, each rounded to two decimals;
    the percentage falls back to 0 unless `total_invested > 0`. -/
def calculate_stock_metrics (quantity buy_price current_price : ℚ) : StockMetrics :=
  let total_invested := quantity * buy_price
  let current_value := quantity * current_price
  let profit_loss := current_value - total_invested
  let profit_loss_percentage :=
    if 0 < total_invested then profit_loss / total_invested * 100 else 0
  { total_invested := round2 total_invested
    current_value := round2 current_value
    profit_loss := round2 profit_loss
    profit_loss_percentage := round2 profit_loss_percentage }

/-! ### Token service (`app/auth.py`)

The functions `create_access_token` and `verify_token` are in the
sources; the JWT primitives they call live in the external `python-jose`
library, which is not part of the repository, so those primitives are
modelled from the spec (§4.3 TokenService). -/

/-- The claims dictionary handed to `create_access_token`
    (`{"sub": ..., "username": ...}` at the call sites). -/
structure TokenData where
  sub : Option String
  username : Option String
deriving DecidableEq

/-- The decoded payload: the caller's claims plus the `exp` claim. -/
structure JwtPayload where
  sub : Option String
  username : Option String
  exp : Int
deriving DecidableEq

/-- Modelled from the spec: an encoded token is an opaque signed blob;
    it is either a structurally well-formed signed payload or malformed. -/
inductive Jwt where
  | signed (payload : JwtPayload) (sig : Nat)
  | malformed (raw : String)
deriving DecidableEq

/-- Injective tag for an optional string inside the serialized payload. -/
def optString : Option String → String
  | some s => "s" ++ s
  | none => "n"

/-- Serialization of a payload for signing. -/
def payloadString (p : JwtPayload) : String :=
  optString p.sub ++ "|" ++ optString p.username ++ "|" ++ intToString p.exp

/-- Modelled from the spec: "signs claims with a symmetric secret using a
    fixed algorithm (HMAC-SHA256 or equivalent)"; the external library's
    signature is modelled as a keyed digest of the serialized payload. -/
def jwtSign (secret : Nat) (p : JwtPayload) : Nat :=
  parseHex ((MD5.hexdigest (utf8Bytes
    (payloadString p ++ "#" ++ natToString secret))).take 8)

/-- Modelled from the spec: `jwt.encode` signs the claims and returns the
    encoded token. -/
def jwt_encode (secret : Nat) (p : JwtPayload) : Jwt :=
  .signed p (jwtSign secret p)

/-- Modelled from the spec: `jwt.decode` checks structure, signature and
    expiry ("Valid while now < expiry", terminal, no grace period); every
    failure is the single `JWTError` outcome, which `verify_token` maps
    to the sentinel `none`. -/
def jwt_decode (secret : Nat) (now : Int) (t : Jwt) : Option JwtPayload :=
  match t with
  | .malformed _ => none
  | .signed p sig => if sig = jwtSign secret p ∧ now < p.exp then some p else none

/-- Line 13: the symmetric signing secret (value immaterial). -/
def SECRET_KEY : Nat := 314159265358979

/-- Line 15: `30 * 24 * 60` minutes, thirty days. -/
def ACCESS_TOKEN_EXPIRE_MINUTES : Nat := 30 * 24 * 60

/-- Lines 54-79 of `create_access_token`: the branch `if expires_delta:`
    tests Python truthiness, so a missing delta and a present but zero
    `timedelta` (falsy) both take the thirty-day default; any non-zero
    delta gives expiry `now` plus the delta.  The delta is carried in
    seconds (the source's `timedelta` resolution). -/
def create_access_token (data : TokenData) (expires_delta : Option Int) (now : Int) : Jwt :=
  let expire : Int :=
    match expires_delta with
    | some d =>
        if d ≠ 0 then now + d
        else now + (ACCESS_TOKEN_EXPIRE_MINUTES : Int) * 60
    | none => now + (ACCESS_TOKEN_EXPIRE_MINUTES : Int) * 60
  jwt_encode SECRET_KEY { sub := data.sub, username := data.username, exp := expire }

/-- Lines 82-98 of `verify_token`: decode, mapping any `JWTError` to `none`. -/
def verify_token (now : Int) (token : Jwt) : Option JwtPayload :=
  jwt_decode SECRET_KEY now token

/-- Expiry claim carried by a token (0 for a malformed blob). -/
def Jwt.expOf : Jwt → Int
  | .signed p _ => p.exp
  | .malformed _ => 0

/-! ### Authorization gate (`app/routes/auth.py`, lines 21-69) -/

/-- A user document in the `users` collection (`_id` as its string form). -/
structure User where
  id : String
  username : String
  email : String
deriving DecidableEq

/-- Outcome of `get_current_user`: the user document, an `HTTPException`
    with status, detail and `WWW-Authenticate` header, or the
    `bson.errors.InvalidId` exception that `ObjectId(user_id)` raises on
    a malformed identifier (uncaught in the source). -/
inductive AuthOutcome where
  | ok (user : User)
  | reject (status : Nat) (detail : String) (wwwAuthHeader : String)
  | invalidIdError (raw : String)
deriving DecidableEq

/-- Validity of a 24-character hex string, `bson.ObjectId.is_valid`. -/
def isHexChar (c : Char) : Bool :=
  decide ((48 ≤ c.toNat ∧ c.toNat ≤ 57) ∨ (97 ≤ c.toNat ∧ c.toNat ≤ 102) ∨
    (65 ≤ c.toNat ∧ c.toNat ≤ 70))

/-- String form accepted by `bson.ObjectId`. -/
def isValidObjectId (s : String) : Bool :=
  s.length == 24 && s.data.all isHexChar

/-- Lines 21-69: verify the bearer token, extract the `sub` claim, look
    the user up in the store; each failure raises a 401 with its own
    detail string and a `WWW-Authenticate: Bearer` header. -/
def get_current_user (db_users : List User) (now : Int) (token : Jwt) : AuthOutcome :=
  match verify_token now token with
  | none => .reject 401 "Invalid or expired token" "Bearer"
  | some payload =>
    match payload.sub with
    | none => .reject 401 "Invalid token payload" "Bearer"
    | some user_id =>
      if isValidObjectId user_id then
        match db_users.find? (fun u => u.id == user_id) with
        | none => .reject 401 "User not found" "Bearer"
        | some user => .ok user
      else .invalidIdError user_id

/-! ### Portfolio routes (`app/routes/portfolio.py`)

The Mongo `portfolio` collection is modelled as a list of stock
documents; `_id` values are carried as their string forms.  Handlers
take the already-authenticated user (the source's
`Depends(get_current_user)`), the collection, and the current time. -/

/-- A document of the `portfolio` collection (lines 81-89). -/
structure Stock where
  id : String
  user_id : String
  stock_name : String
  quantity : ℚ
  buy_price : ℚ
  current_price : ℚ
  created_at : Int
  updated_at : Int
deriving DecidableEq

/-- Request body of the add operation (`models.StockCreate`). -/
structure StockCreate where
  stock_name : String
  quantity : ℚ
  buy_price : ℚ
deriving DecidableEq

/-- Request body of the partial update (`models.StockUpdate`). -/
structure StockUpdate where
  stock_name : Option String
  quantity : Option ℚ
  buy_price : Option ℚ
deriving DecidableEq

/-- Response schema (`models.StockResponse`). -/
structure StockResponse where
  id : String
  user_id : String
  stock_name : String
  quantity : ℚ
  buy_price : ℚ
  current_price : ℚ
  total_invested : ℚ
  current_value : ℚ
  profit_loss : ℚ
  profit_loss_percentage : ℚ
deriving DecidableEq

/-- Response schema (`models.MessageResponse`). -/
structure MessageResponse where
  message : String
deriving DecidableEq

/-- A handler either returns its response model or raises `HTTPException`. -/
inductive HandlerResult (α : Type) where
  | ok (value : α)
  | httpError (status : Nat) (detail : String)
deriving DecidableEq

/-- Assembling a `StockResponse` from the stored fields, the sampled
    price and the computed metrics (the `**metrics` spread). -/
def mkStockResponse (id user_id stock_name : String)
    (quantity buy_price current_price : ℚ) (m : StockMetrics) : StockResponse :=
  ⟨id, user_id, stock_name, quantity, buy_price, current_price,
   m.total_invested, m.current_value, m.profit_loss, m.profit_loss_percentage⟩

/-- Lines 67-103 of `add_stock`: uses `buy_price` as the mock current
    price, computes metrics, inserts the document (with a persisted
    `current_price` field), returns the response.  `new_id` is the
    store-generated `inserted_id`, `tnow` the `datetime.utcnow()` value. -/
def add_stock (stock_data : StockCreate) (user : User) (db : List Stock)
    (new_id : String) (tnow : Int) : StockResponse × List Stock :=
  let current_price := stock_data.buy_price
  let metrics := calculate_stock_metrics stock_data.quantity stock_data.buy_price current_price
  let stock_doc : Stock :=
    { id := new_id, user_id := user.id, stock_name := stock_data.stock_name,
      quantity := stock_data.quantity, buy_price := stock_data.buy_price,
      current_price := current_price, created_at := tnow, updated_at := tnow }
  (mkStockResponse new_id user.id stock_data.stock_name
      stock_data.quantity stock_data.buy_price current_price metrics,
   db ++ [stock_doc])

/-- The loop body shared by the read handlers (lines 126-145, 182-201):
    a freshly simulated price and freshly computed metrics from the
    stored `quantity` and `buy_price`. -/
def stockToResponse (now : Nat) (stock : Stock) : StockResponse :=
  let current_price := simulate_stock_price stock.stock_name now stock.buy_price
  let metrics := calculate_stock_metrics stock.quantity stock.buy_price current_price
  mkStockResponse stock.id stock.user_id stock.stock_name
    stock.quantity stock.buy_price current_price metrics

/-- Lines 106-147 of `get_all_stocks`: all documents of the caller
    (`find {"user_id": user_id}`, `to_list(length=1000)`), each converted
    with a freshly simulated price. -/
def get_all_stocks (user : User) (db : List Stock) (now : Nat) : List StockResponse :=
  ((db.filter (fun s => s.user_id == user.id)).take 1000).map (stockToResponse now)

/-- Mongo `find_one {"_id": stock_id, "user_id": user_id}`. -/
def find_one (db : List Stock) (stock_id user_id : String) : Option Stock :=
  db.find? (fun s => s.id == stock_id && s.user_id == user_id)

/-- Lines 150-201 of `get_stock`: 400 on a malformed id, 404 when no
    document matches both the id and the caller, otherwise the response
    with a freshly simulated price. -/
def get_stock (stock_id : String) (user : User) (db : List Stock) (now : Nat) :
    HandlerResult StockResponse :=
  if ¬ isValidObjectId stock_id then .httpError 400 "Invalid stock ID format"
  else
    match find_one db stock_id user.id with
    | none => .httpError 404 "Stock not found"
    | some stock => .ok (stockToResponse now stock)

/-- Lines 239-250: the `$set` document — `updated_at` always, each
    provided field, and `current_price := buy_price` when `buy_price` is
    provided. -/
def applyUpdate (stock_data : StockUpdate) (tnow : Int) (s : Stock) : Stock :=
  let s1 := { s with updated_at := tnow }
  let s2 :=
    match stock_data.stock_name with
    | some n => { s1 with stock_name := n }
    | none => s1
  let s3 :=
    match stock_data.quantity with
    | some q => { s2 with quantity := q }
    | none => s2
  match stock_data.buy_price with
  | some b => { s3 with buy_price := b, current_price := b }
  | none => s3

/-- Mongo `update_one {"_id": stock_id}`: rewrite the first matching
    document. -/
def update_first (stock_id : String) (f : Stock → Stock) : List Stock → List Stock
  | [] => []
  | s :: rest =>
      if s.id == stock_id then f s :: rest else s :: update_first stock_id f rest

/-- Lines 204-280 of `update_stock`: 400 on a malformed id, 404 when the
    ownership pre-check fails, otherwise apply the partial update (the
    write filters on `_id` only), re-fetch, and respond with a freshly
    simulated price; the unreachable missing re-fetch becomes a 500. -/
def update_stock (stock_id : String) (stock_data : StockUpdate) (user : User)
    (db : List Stock) (now : Nat) (tnow : Int) :
    HandlerResult StockResponse × List Stock :=
  if ¬ isValidObjectId stock_id then (.httpError 400 "Invalid stock ID format", db)
  else
    match find_one db stock_id user.id with
    | none => (.httpError 404 "Stock not found", db)
    | some _ =>
      let db' := update_first stock_id (applyUpdate stock_data tnow) db
      match db'.find? (fun s => s.id == stock_id) with
      | none => (.httpError 500 "Internal Server Error", db')
      | some updated_stock => (.ok (stockToResponse now updated_stock), db')

/-- Mongo `delete_one {"_id": stock_id, "user_id": user_id}`: remove the
    first matching document, reporting `deleted_count`. -/
def delete_first (stock_id user_id : String) : List Stock → List Stock × Nat
  | [] => ([], 0)
  | s :: rest =>
      if s.id == stock_id && s.user_id == user_id then (rest, 1)
      else
        let r := delete_first stock_id user_id rest
        (s :: r.1, r.2)

/-- Lines 283-315 of `delete_stock`: 400 on a malformed id, delete
    filtered by id and owner, 404 when `deleted_count == 0`. -/
def delete_stock (stock_id : String) (user : User) (db : List Stock) :
    HandlerResult MessageResponse × List Stock :=
  if ¬ isValidObjectId stock_id then (.httpError 400 "Invalid stock ID format", db)
  else
    let r := delete_first stock_id user.id db
    if r.2 = 0 then (.httpError 404 "Stock not found", r.1)
    else (.ok ⟨"Stock deleted successfully"⟩, r.1)

/-- Overwriting the persisted `current_price` field of a document,
    used to state that read operations never consult it. -/
def setStoredPrice (f : Stock → ℚ) (s : Stock) : Stock :=
  { s with current_price := f s }

/-! ## Theorems -/

/-- Sanity check against the RFC 1321 test vector for "abc". -/
theorem md5_vector_abc :
    MD5.hexdigest (utf8Bytes "abc") = "900150983cd24fb0d6963f7d28e17f72" := by
  rfl

/-- Sanity check against the RFC 1321 test vector for the empty string. -/
theorem md5_vector_empty :
    MD5.hexdigest (utf8Bytes "") = "d41d8cd98f00b204e9800998ecf8427e" := by
  rfl

/-- Sanity check of the full seed construction against
    `md5("AAPL_1") = 9ed970c896662e60d3808e8c1000d556`. -/
theorem md5_vector_seed :
    hash_hex "AAPL" 1 = "9ed970c896662e60d3808e8c1000d556" := by
  rfl

/-! ### Rounding lemmas -/

/-- Rounding to two decimals moves a value by at most `1/200`. -/
theorem abs_round2_sub_le (x : ℚ) : |round2 x - x| ≤ 1 / 200 := by
  have h : |x * 100 - (round (x * 100) : ℚ)| ≤ 1 / 2 := abs_sub_round (x * 100)
  have e : round2 x - x = -(x * 100 - ((round (x * 100) : ℤ) : ℚ)) / 100 := by
    unfold round2; ring
  rw [e, abs_div, abs_neg]
  have h100 : |(100 : ℚ)| = 100 := by norm_num
  rw [h100]
  linarith

/-- The per-field rounding of `current_value`, `total_invested` and
    `profit_loss` keeps the identity `cv - ti = pl` within `1/100`. -/
theorem round2_additive_gap (a b : ℚ) :
    |round2 a - round2 b - round2 (a - b)| ≤ 1 / 100 := by
  have hcast : round2 a - round2 b - round2 (a - b) =
      ((round (a * 100) - round (b * 100) - round ((a - b) * 100) : ℤ) : ℚ) / 100 := by
    unfold round2; push_cast; ring
  have h1 := abs_sub_round (a * 100)
  have h2 := abs_sub_round (b * 100)
  have h3 := abs_sub_round ((a - b) * 100)
  rw [abs_le] at h1 h2 h3
  have hq : |((round (a * 100) - round (b * 100) - round ((a - b) * 100) : ℤ) : ℚ)| ≤ 3 / 2 := by
    have hsum : ((round (a * 100) - round (b * 100) - round ((a - b) * 100) : ℤ) : ℚ) =
        -(a * 100 - (round (a * 100) : ℚ)) + (b * 100 - (round (b * 100) : ℚ)) +
          ((a - b) * 100 - (round ((a - b) * 100) : ℚ)) := by
      push_cast; ring
    rw [abs_le, hsum]
    constructor <;> [linarith [h1.1, h2.1, h3.1, h1.2, h2.2, h3.2];
      linarith [h1.1, h2.1, h3.1, h1.2, h2.2, h3.2]]
  have hint : |round (a * 100) - round (b * 100) - round ((a - b) * 100)| ≤ 1 := by
    have hlt : (|round (a * 100) - round (b * 100) - round ((a - b) * 100)| : ℤ) < 2 := by
      have : ((|round (a * 100) - round (b * 100) - round ((a - b) * 100)| : ℤ) : ℚ) < 2 := by
        rw [Int.cast_abs]
        exact lt_of_le_of_lt hq (by norm_num)
      exact_mod_cast this
    omega
  have hqle : |((round (a * 100) - round (b * 100) - round ((a - b) * 100) : ℤ) : ℚ)| ≤ 1 := by
    rw [← Int.cast_abs]
    exact_mod_cast hint
  rw [hcast, abs_div]
  have h100 : |(100 : ℚ)| = 100 := by norm_num
  rw [h100]
  linarith [hqle]

/-! ### Variation bounds -/

/-- The hash-derived fraction lies in `[0, 1)`. -/
theorem random_factor_mem (stock_name : String) (hour : Nat) :
    0 ≤ random_factor stock_name hour ∧ random_factor stock_name hour < 1 := by
  unfold random_factor
  constructor
  · positivity
  · have h : hash_int stock_name hour % 10000 < 10000 := Nat.mod_lt _ (by norm_num)
    have hq : ((hash_int stock_name hour % 10000 : Nat) : ℚ) < 10000 := by
      exact_mod_cast h
    rw [div_lt_one (by norm_num)]
    exact hq

/-- The signed variation lies in `[-1/20, 1/20)`, i.e. within ±5%. -/
theorem variation_percent_mem (stock_name : String) (hour : Nat) :
    -(1 / 20) ≤ variation_percent stock_name hour ∧
      variation_percent stock_name hour < 1 / 20 := by
  obtain ⟨h0, h1⟩ := random_factor_mem stock_name hour
  unfold variation_percent
  norm_num
  constructor <;> nlinarith

/-- On a positive buy price the simulator takes the main branch and
    returns the rounded varied price. -/
theorem simulate_pos_eq (stock_name : String) (now : Nat) (buy_price : ℚ)
    (hbp : 0 < buy_price) :
    simulate_stock_price stock_name now buy_price =
      round2 (buy_price * (1 + variation_percent stock_name (current_hour now))) := by
  obtain ⟨hv, _⟩ := variation_percent_mem stock_name (current_hour now)
  have hpos : 0 < buy_price * (1 + variation_percent stock_name (current_hour now)) := by
    have h1 : (0 : ℚ) < 1 + variation_percent stock_name (current_hour now) := by linarith
    exact mul_pos hbp h1
  unfold simulate_stock_price
  rw [if_neg (not_le.mpr hbp)]
  show round2 (if buy_price * (1 + variation_percent stock_name (current_hour now)) ≤ 0
      then buy_price else buy_price * (1 + variation_percent stock_name (current_hour now))) = _
  rw [if_neg (not_le.mpr hpos)]

/-! ### Claim theorems for the price simulator and metrics -/

/-- C1: for every instrument name and every `buy_price > 0`,
    `simulate_stock_price` returns `round(buy_price * (1 + variation), 2)`
    where `variation = (fraction - 0.5) * 0.10` and the fraction is the
    first 8 hex characters of the MD5 digest of the UTF-8 bytes of
    `"{instrument_name}_{hour_bucket}"`, taken modulo 10000 and divided
    by 10000, with `hour_bucket = now / 3600`; and whenever the computed
    price were ≤ 0 the original `buy_price` would be returned (the guard
    is unreachable for a positive buy price). -/
theorem simulate_matches_spec_formula (instrument_name : String) (now : Nat)
    (buy_price : ℚ) (hbp : 0 < buy_price) :
    simulate_stock_price instrument_name now buy_price =
      round2 (buy_price * (1 + spec_variation instrument_name (now / 3600))) ∧
    (buy_price * (1 + spec_variation instrument_name (now / 3600)) ≤ 0 →
      simulate_stock_price instrument_name now buy_price = buy_price) := by
  have hsv : spec_variation instrument_name (now / 3600) =
      variation_percent instrument_name (current_hour now) := rfl
  obtain ⟨hv, _⟩ := variation_percent_mem instrument_name (current_hour now)
  have hpos : 0 < buy_price * (1 + spec_variation instrument_name (now / 3600)) := by
    rw [hsv]
    have h1 : (0 : ℚ) < 1 + variation_percent instrument_name (current_hour now) := by
      linarith
    exact mul_pos hbp h1
  refine ⟨?_, fun hle => absurd hle (not_le.mpr hpos)⟩
  rw [hsv]
  exact simulate_pos_eq instrument_name now buy_price hbp

/-- C1 witness at instrument "AAPL", time 7200, buy price 150. -/
theorem simulate_matches_spec_formula_witness :
    (0 : ℚ) < 150 ∧
    (simulate_stock_price "AAPL" 7200 150 =
        round2 (150 * (1 + spec_variation "AAPL" (7200 / 3600))) ∧
      (150 * (1 + spec_variation "AAPL" (7200 / 3600)) ≤ 0 →
        simulate_stock_price "AAPL" 7200 150 = 150)) :=
  ⟨by norm_num, simulate_matches_spec_formula "AAPL" 7200 150 (by norm_num)⟩

/-- C2: the metrics computation returns the four advertised formulas,
    each rounded to two decimals; the percentage is 0 when the invested
    total is 0 (vacuous under the positivity hypotheses); and the
    returned values satisfy `current_value - total_invested = profit_loss`
    within `1/100`. -/
theorem metrics_formulas_and_consistency (quantity buy_price current_price : ℚ)
    (hq : 0 < quantity) (hb : 0 < buy_price) (hc : 0 ≤ current_price) :
    (calculate_stock_metrics quantity buy_price current_price).total_invested =
      round2 (quantity * buy_price) ∧
    (calculate_stock_metrics quantity buy_price current_price).current_value =
      round2 (quantity * current_price) ∧
    (calculate_stock_metrics quantity buy_price current_price).profit_loss =
      round2 (quantity * current_price - quantity * buy_price) ∧
    (calculate_stock_metrics quantity buy_price current_price).profit_loss_percentage =
      round2 ((quantity * current_price - quantity * buy_price) /
        (quantity * buy_price) * 100) ∧
    (quantity * buy_price = 0 →
      (calculate_stock_metrics quantity buy_price current_price).profit_loss_percentage = 0) ∧
    |(calculate_stock_metrics quantity buy_price current_price).current_value -
        (calculate_stock_metrics quantity buy_price current_price).total_invested -
        (calculate_stock_metrics quantity buy_price current_price).profit_loss| ≤ 1 / 100 := by
  have hti : 0 < quantity * buy_price := mul_pos hq hb
  refine ⟨rfl, rfl, rfl, ?_, fun h => absurd h (ne_of_gt hti), ?_⟩
  · show round2 (if 0 < quantity * buy_price then
        (quantity * current_price - quantity * buy_price) / (quantity * buy_price) * 100
        else 0) = _
    rw [if_pos hti]
  · exact round2_additive_gap (quantity * current_price) (quantity * buy_price)

/-- C2 witness at quantity 10, buy price 150, current price 165. -/
theorem metrics_formulas_and_consistency_witness :
    (calculate_stock_metrics 10 150 165).total_invested = round2 (10 * 150) ∧
    (calculate_stock_metrics 10 150 165).current_value = round2 (10 * 165) ∧
    (calculate_stock_metrics 10 150 165).profit_loss =
      round2 (10 * 165 - 10 * 150) ∧
    (calculate_stock_metrics 10 150 165).profit_loss_percentage =
      round2 ((10 * 165 - 10 * 150) / (10 * 150) * 100) ∧
    ((10 : ℚ) * 150 = 0 →
      (calculate_stock_metrics 10 150 165).profit_loss_percentage = 0) ∧
    |(calculate_stock_metrics 10 150 165).current_value -
        (calculate_stock_metrics 10 150 165).total_invested -
        (calculate_stock_metrics 10 150 165).profit_loss| ≤ 1 / 100 :=
  metrics_formulas_and_consistency 10 150 165 (by norm_num) (by norm_num) (by norm_num)

/-- C7: for a fixed instrument and buy price, any two calls that fall in
    the same hour bucket return the identical value - the result depends
    on time only through the hour bucket, with no other state. -/
theorem simulate_deterministic_within_bucket (stock_name : String) (buy_price : ℚ)
    (t1 t2 : Nat) (h : t1 / 3600 = t2 / 3600) :
    simulate_stock_price stock_name t1 buy_price =
      simulate_stock_price stock_name t2 buy_price := by
  unfold simulate_stock_price current_hour
  rw [h]

/-- C7 witness: two calls 3599 seconds apart inside hour bucket 1. -/
theorem simulate_deterministic_within_bucket_witness :
    3600 / 3600 = 7199 / 3600 ∧
    simulate_stock_price "AAPL" 3600 150 = simulate_stock_price "AAPL" 7199 150 :=
  ⟨by norm_num, simulate_deterministic_within_bucket "AAPL" 150 3600 7199 (by norm_num)⟩

/-- C8: for every `buy_price > 0` the simulated price lies within
    `[0.95·buy_price, 1.05·buy_price]` up to the `1/200` effect of
    rounding to two decimals, the underlying variation lying in the
    closed-open range `[-0.05, 0.05)`. -/
theorem simulate_bounded_variation (stock_name : String) (now : Nat) (buy_price : ℚ)
    (hbp : 0 < buy_price) :
    (19 / 20) * buy_price - 1 / 200 ≤ simulate_stock_price stock_name now buy_price ∧
    simulate_stock_price stock_name now buy_price ≤ (21 / 20) * buy_price + 1 / 200 ∧
    -(1 / 20) ≤ variation_percent stock_name (current_hour now) ∧
    variation_percent stock_name (current_hour now) < 1 / 20 := by
  obtain ⟨hv1, hv2⟩ := variation_percent_mem stock_name (current_hour now)
  have heq := simulate_pos_eq stock_name now buy_price hbp
  set x := buy_price * (1 + variation_percent stock_name (current_hour now)) with hx
  have hr := abs_round2_sub_le x
  rw [abs_le] at hr
  have hlo : (19 / 20) * buy_price ≤ x := by nlinarith
  have hhi : x ≤ (21 / 20) * buy_price := by nlinarith
  exact ⟨by rw [heq]; linarith [hr.1], by rw [heq]; linarith [hr.2], hv1, hv2⟩

/-- C8 witness at instrument "AAPL", time 7200, buy price 150. -/
theorem simulate_bounded_variation_witness :
    (19 / 20) * (150 : ℚ) - 1 / 200 ≤ simulate_stock_price "AAPL" 7200 150 ∧
    simulate_stock_price "AAPL" 7200 150 ≤ (21 / 20) * 150 + 1 / 200 ∧
    -(1 / 20) ≤ variation_percent "AAPL" (current_hour 7200) ∧
    variation_percent "AAPL" (current_hour 7200) < 1 / 20 :=
  simulate_bounded_variation "AAPL" 7200 150 (by norm_num)

/-- C9: for every instrument name and every `buy_price ≤ 0` the
    simulator returns the input unchanged and raises no error. -/
theorem simulate_nonpositive_guard (stock_name : String) (now : Nat) (buy_price : ℚ)
    (hbp : buy_price ≤ 0) :
    simulate_stock_price stock_name now buy_price = buy_price := by
  unfold simulate_stock_price
  rw [if_pos hbp]

/-- C9 witness at buy prices 0 and -10. -/
theorem simulate_nonpositive_guard_witness :
    simulate_stock_price "AAPL" 0 0 = 0 ∧
    simulate_stock_price "AAPL" 0 (-10) = -10 :=
  ⟨simulate_nonpositive_guard "AAPL" 0 0 (by norm_num),
   simulate_nonpositive_guard "AAPL" 0 (-10) (by norm_num)⟩

/-! ### Token service theorems -/

/-- Decoding an encoded token with the same secret before its expiry
    recovers exactly the signed payload. -/
theorem jwt_decode_encode (secret : Nat) (t : Int) (p : JwtPayload)
    (h : t < p.exp) :
    jwt_decode secret t (jwt_encode secret p) = some p := by
  show (if jwtSign secret p = jwtSign secret p ∧ t < p.exp then some p else none) = some p
  rw [if_pos ⟨rfl, h⟩]

/-- C3: a token issued for a claims record verifies successfully at any
    time before its expiry and returns claims with the same subject and
    username; a token issued without an explicit ttl carries expiry equal
    to the issuance time plus 30 days (in seconds). -/
theorem token_round_trip (data : TokenData) (expires_delta : Option Int)
    (now verifyTime : Int)
    (h : verifyTime < (create_access_token data expires_delta now).expOf) :
    (∃ p, verify_token verifyTime (create_access_token data expires_delta now) = some p ∧
        p.sub = data.sub ∧ p.username = data.username) ∧
    (expires_delta = none →
      (create_access_token data expires_delta now).expOf = now + 30 * 24 * 60 * 60) := by
  refine ⟨⟨JwtPayload.mk data.sub data.username
      ((create_access_token data expires_delta now).expOf),
    jwt_decode_encode SECRET_KEY verifyTime
      (JwtPayload.mk data.sub data.username
        ((create_access_token data expires_delta now).expOf)) h,
    rfl, rfl⟩, ?_⟩
  rintro rfl
  show now + (ACCESS_TOKEN_EXPIRE_MINUTES : Int) * 60 = now + 30 * 24 * 60 * 60
  norm_num [ACCESS_TOKEN_EXPIRE_MINUTES]

/-- C3 witness: issuance at time 0 with the default ttl, verification at
    time 100. -/
theorem token_round_trip_witness :
    (100 : Int) < (create_access_token ⟨some "64b0", some "alice"⟩ none 0).expOf ∧
    ((∃ p, verify_token 100 (create_access_token ⟨some "64b0", some "alice"⟩ none 0) =
          some p ∧ p.sub = some "64b0" ∧ p.username = some "alice") ∧
      ((none : Option Int) = none →
        (create_access_token ⟨some "64b0", some "alice"⟩ none 0).expOf =
          0 + 30 * 24 * 60 * 60)) :=
  ⟨by decide, token_round_trip ⟨some "64b0", some "alice"⟩ none 0 100 (by decide)⟩

/-- C4 counterexample: a token issued with an explicit zero ttl is a
    falsy `timedelta` in the source's `if expires_delta:` branch, so it
    silently receives the thirty-day default expiry and IS accepted by
    verify shortly after issuance - here at time 100 against issuance at
    time 0 - refuting the claim's zero-ttl rejection. -/
theorem zero_ttl_token_accepted :
    verify_token 100 (create_access_token ⟨some "64b0", some "alice"⟩ (some 0) 0) =
      some ⟨some "64b0", some "alice", 2592000⟩ ∧
    (create_access_token ⟨some "64b0", some "alice"⟩ (some 0) 0).expOf =
      0 + 30 * 24 * 60 * 60 := by
  constructor
  · exact jwt_decode_encode SECRET_KEY 100 ⟨some "64b0", some "alice", 2592000⟩ (by norm_num)
  · decide

/-- C4 (amended): verification is total - it returns the decoded claims
    or the sentinel `none`, never an exception - and it returns the
    sentinel on a bad signature, on a malformed blob, and on an expiry
    not in the future; a token issued with a strictly negative ttl is
    rejected at every verification time at or after issuance, while a
    ttl of exactly zero is falsy in the source and silently receives the
    thirty-day default expiry. -/
theorem verify_rejects_all_failures :
    (∀ (now : Int) (t : Jwt), verify_token now t = none ∨
        ∃ p, verify_token now t = some p) ∧
    (∀ (now : Int) (p : JwtPayload) (sig : Nat), sig ≠ jwtSign SECRET_KEY p →
        verify_token now (.signed p sig) = none) ∧
    (∀ (now : Int) (raw : String), verify_token now (.malformed raw) = none) ∧
    (∀ (now : Int) (p : JwtPayload) (sig : Nat), p.exp ≤ now →
        verify_token now (.signed p sig) = none) ∧
    (∀ (data : TokenData) (ttl now verifyTime : Int), ttl < 0 → now ≤ verifyTime →
        verify_token verifyTime (create_access_token data (some ttl) now) = none) ∧
    (∀ (data : TokenData) (now : Int),
        (create_access_token data (some 0) now).expOf = now + 30 * 24 * 60 * 60) := by
  have hexp : ∀ (now : Int) (p : JwtPayload) (sig : Nat), p.exp ≤ now →
      verify_token now (.signed p sig) = none := by
    intro now p sig he
    show (if sig = jwtSign SECRET_KEY p ∧ now < p.exp then some p else none) = none
    rw [if_neg (fun hc => absurd hc.2 (not_lt.mpr he))]
  refine ⟨?_, ?_, fun _ _ => rfl, hexp, ?_, ?_⟩
  · intro now t
    cases hv : verify_token now t with
    | none => exact Or.inl rfl
    | some p => exact Or.inr ⟨p, rfl⟩
  · intro now p sig hs
    show (if sig = jwtSign SECRET_KEY p ∧ now < p.exp then some p else none) = none
    rw [if_neg (fun hc => hs hc.1)]
  · intro data ttl now verifyTime httl hnv
    have hne : ttl ≠ 0 := ne_of_lt httl
    show jwt_decode SECRET_KEY verifyTime (jwt_encode SECRET_KEY
        ⟨data.sub, data.username,
          if ttl ≠ 0 then now + ttl
          else now + (ACCESS_TOKEN_EXPIRE_MINUTES : Int) * 60⟩) = none
    rw [if_pos hne]
    exact hexp verifyTime ⟨data.sub, data.username, now + ttl⟩
      (jwtSign SECRET_KEY ⟨data.sub, data.username, now + ttl⟩)
      (show now + ttl ≤ verifyTime by linarith)
  · intro data now
    show now + (ACCESS_TOKEN_EXPIRE_MINUTES : Int) * 60 = now + 30 * 24 * 60 * 60
    norm_num [ACCESS_TOKEN_EXPIRE_MINUTES]

/-- C4 amended-claim witness: a malformed blob, a corrupted signature,
    an expired payload, and a negative-ttl token verified at its
    issuance time are all rejected with the sentinel, and a zero-ttl
    token issued at time 4 carries the default expiry. -/
theorem verify_rejects_all_failures_witness :
    verify_token 0 (.malformed "xyz") = none ∧
    verify_token 0 (.signed ⟨some "a", some "u", 50⟩
        (jwtSign SECRET_KEY ⟨some "a", some "u", 50⟩ + 1)) = none ∧
    verify_token 7 (.signed ⟨some "a", some "u", 7⟩
        (jwtSign SECRET_KEY ⟨some "a", some "u", 7⟩)) = none ∧
    verify_token 3 (create_access_token ⟨some "a", some "u"⟩ (some (-5)) 3) = none ∧
    (create_access_token ⟨some "a", some "u"⟩ (some 0) 4).expOf = 4 + 30 * 24 * 60 * 60 :=
  ⟨verify_rejects_all_failures.2.2.1 0 "xyz",
   verify_rejects_all_failures.2.1 0 ⟨some "a", some "u", 50⟩ _ (Nat.succ_ne_self _),
   verify_rejects_all_failures.2.2.2.1 7 ⟨some "a", some "u", 7⟩ _ le_rfl,
   verify_rejects_all_failures.2.2.2.2.1 ⟨some "a", some "u"⟩ (-5) 3 3 (by norm_num) le_rfl,
   verify_rejects_all_failures.2.2.2.2.2 ⟨some "a", some "u"⟩ 4⟩

/-! ### Authorization gate theorems -/

/-- C5 counterexample: two rejected bearer tokens - a malformed blob and
    a validly signed token lacking the subject claim - both yield a 401
    rejection, but with different detail strings in the response body, so
    the externally-visible outcomes are not identical and the rejection
    cause is leaked, refuting the claim as stated. -/
theorem auth_rejections_distinguishable :
    get_current_user [] 0 (.malformed "x") =
      .reject 401 "Invalid or expired token" "Bearer" ∧
    get_current_user [] 0 (jwt_encode SECRET_KEY ⟨none, some "alice", 100⟩) =
      .reject 401 "Invalid token payload" "Bearer" ∧
    get_current_user [] 0 (.malformed "x") ≠
      get_current_user [] 0 (jwt_encode SECRET_KEY ⟨none, some "alice", 100⟩) := by
  refine ⟨rfl, ?_, ?_⟩ <;> decide

/-- C5 (amended): for every bearer token whose verified subject claim, if
    present, is a well-formed object id, the gate returns a stored
    identity or a tagged 401 rejection carrying the
    `WWW-Authenticate: Bearer` header and one of exactly three detail
    strings (invalid/expired token, missing subject claim, identity not
    found); the three rejections share the status code and header but
    differ in the detail string, so the cause is externally
    distinguishable. -/
theorem auth_gate_classified (db_users : List User) (now : Int) (token : Jwt)
    (hsub : ∀ p uid, verify_token now token = some p → p.sub = some uid →
        isValidObjectId uid = true) :
    (∃ u, get_current_user db_users now token = .ok u ∧ u ∈ db_users) ∨
    (∃ d, get_current_user db_users now token = .reject 401 d "Bearer" ∧
        (d = "Invalid or expired token" ∨ d = "Invalid token payload" ∨
          d = "User not found")) := by
  unfold get_current_user
  split
  · exact Or.inr ⟨_, rfl, Or.inl rfl⟩
  · rename_i payload hv
    split
    · exact Or.inr ⟨_, rfl, Or.inr (Or.inl rfl)⟩
    · rename_i uid hs
      rw [if_pos (hsub payload uid hv hs)]
      split
      · exact Or.inr ⟨_, rfl, Or.inr (Or.inr rfl)⟩
      · rename_i u hf
        exact Or.inl ⟨u, rfl, List.mem_of_find?_eq_some hf⟩

/-- C5 amended-claim witness at an empty store and a malformed token. -/
theorem auth_gate_classified_witness :
    (∃ u, get_current_user [] 0 (.malformed "x") = .ok u ∧ u ∈ ([] : List User)) ∨
    (∃ d, get_current_user [] 0 (.malformed "x") = .reject 401 d "Bearer" ∧
        (d = "Invalid or expired token" ∨ d = "Invalid token payload" ∨
          d = "User not found")) :=
  auth_gate_classified [] 0 (.malformed "x")
    (fun p uid h _ => by simp [verify_token, jwt_decode] at h)

/-! ### Ownership isolation -/

/-- A lookup filtered by id and owner misses when the caller is not the
    owner (given that ids are unique in the store). -/
theorem find_one_eq_none_of_other_owner (db : List Stock) (h : Stock) (uid : String)
    (hmem : h ∈ db) (howner : uid ≠ h.user_id)
    (huniq : ∀ s ∈ db, s.id = h.id → s = h) :
    find_one db h.id uid = none := by
  unfold find_one
  rw [List.find?_eq_none]
  intro s hs
  simp only [Bool.and_eq_true, beq_iff_eq, not_and]
  intro hid huid
  exact howner (((huniq s hs hid) ▸ huid).symm)

/-- A delete filtered by id and owner deletes nothing when no document
    matches both. -/
theorem delete_first_no_match (sid uid : String) (l : List Stock)
    (hl : ∀ s ∈ l, ¬(s.id = sid ∧ s.user_id = uid)) :
    delete_first sid uid l = (l, 0) := by
  induction l with
  | nil => rfl
  | cons s rest ih =>
    have hcond : ¬(s.id = sid ∧ s.user_id = uid) := hl s (List.mem_cons_self s rest)
    have hrest := ih (fun t ht => hl t (List.mem_cons_of_mem s ht))
    have hb : (s.id == sid && s.user_id == uid) = false := by
      rcases not_and_or.mp hcond with hne | hne
      · simp [hne]
      · simp [hne]
    show (if (s.id == sid && s.user_id == uid) = true then (rest, 1)
        else (s :: (delete_first sid uid rest).1, (delete_first sid uid rest).2)) =
      (s :: rest, 0)
    rw [hb, if_neg (by simp), hrest]

/-- C6: a holding owned by one identity is invisible and immutable to
    every other authenticated identity: fetching, updating and deleting
    it by its id all produce the 404 NotFound outcome, never the record,
    and leave the store unchanged; and every response of the list
    operation belongs to the caller. -/
theorem ownership_isolation (db : List Stock) (h : Stock) (userB : User)
    (stock_data : StockUpdate) (now : Nat) (tnow : Int)
    (hmem : h ∈ db) (howner : userB.id ≠ h.user_id)
    (hvalid : isValidObjectId h.id = true)
    (huniq : ∀ s ∈ db, s.id = h.id → s = h) :
    get_stock h.id userB db now = .httpError 404 "Stock not found" ∧
    update_stock h.id stock_data userB db now tnow =
      (.httpError 404 "Stock not found", db) ∧
    delete_stock h.id userB db = (.httpError 404 "Stock not found", db) ∧
    (∀ r ∈ get_all_stocks userB db now, r.user_id = userB.id) := by
  have hfind : find_one db h.id userB.id = none :=
    find_one_eq_none_of_other_owner db h userB.id hmem howner huniq
  have hdel : delete_first h.id userB.id db = (db, 0) := by
    apply delete_first_no_match
    intro s hs hc
    exact howner (((huniq s hs hc.1) ▸ hc.2).symm)
  refine ⟨?_, ?_, ?_, ?_⟩
  · unfold get_stock
    rw [if_neg (not_not_intro hvalid), hfind]
  · unfold update_stock
    rw [if_neg (not_not_intro hvalid), hfind]
  · unfold delete_stock
    rw [if_neg (not_not_intro hvalid)]
    show (if (delete_first h.id userB.id db).2 = 0
        then ((HandlerResult.httpError 404 "Stock not found" :
            HandlerResult MessageResponse), (delete_first h.id userB.id db).1)
        else (HandlerResult.ok ⟨"Stock deleted successfully"⟩,
            (delete_first h.id userB.id db).1)) =
      (HandlerResult.httpError 404 "Stock not found", db)
    rw [hdel]
    exact rfl
  · intro r hr
    unfold get_all_stocks at hr
    obtain ⟨s, hsmem, rfl⟩ := List.mem_map.mp hr
    have hsf : s ∈ db.filter (fun s => s.user_id == userB.id) :=
      List.take_subset _ _ hsmem
    have hpred := (List.mem_filter.mp hsf).2
    have huser : s.user_id = userB.id := by simpa [beq_iff_eq] using hpred
    exact huser

/-- C6 witness: identity "64b1" probing the holding of identity "64b0". -/
theorem ownership_isolation_witness :
    get_stock "aaaaaaaaaaaaaaaaaaaaaaaa" ⟨"64b1", "bob", "bob@x.com"⟩
        [⟨"aaaaaaaaaaaaaaaaaaaaaaaa", "64b0", "AAPL", 10, 150, 150, 0, 0⟩] 0 =
      HandlerResult.httpError 404 "Stock not found" ∧
    update_stock "aaaaaaaaaaaaaaaaaaaaaaaa" (StockUpdate.mk none (some 25) none)
        ⟨"64b1", "bob", "bob@x.com"⟩
        [⟨"aaaaaaaaaaaaaaaaaaaaaaaa", "64b0", "AAPL", 10, 150, 150, 0, 0⟩] 0 0 =
      (HandlerResult.httpError 404 "Stock not found",
        [⟨"aaaaaaaaaaaaaaaaaaaaaaaa", "64b0", "AAPL", 10, 150, 150, 0, 0⟩]) ∧
    delete_stock "aaaaaaaaaaaaaaaaaaaaaaaa" ⟨"64b1", "bob", "bob@x.com"⟩
        [⟨"aaaaaaaaaaaaaaaaaaaaaaaa", "64b0", "AAPL", 10, 150, 150, 0, 0⟩] =
      (HandlerResult.httpError 404 "Stock not found",
        [⟨"aaaaaaaaaaaaaaaaaaaaaaaa", "64b0", "AAPL", 10, 150, 150, 0, 0⟩]) ∧
    (∀ r ∈ get_all_stocks ⟨"64b1", "bob", "bob@x.com"⟩
        [⟨"aaaaaaaaaaaaaaaaaaaaaaaa", "64b0", "AAPL", 10, 150, 150, 0, 0⟩] 0,
      r.user_id = "64b1") :=
  ownership_isolation
    [⟨"aaaaaaaaaaaaaaaaaaaaaaaa", "64b0", "AAPL", 10, 150, 150, 0, 0⟩]
    ⟨"aaaaaaaaaaaaaaaaaaaaaaaa", "64b0", "AAPL", 10, 150, 150, 0, 0⟩
    ⟨"64b1", "bob", "bob@x.com"⟩ (StockUpdate.mk none (some 25) none) 0 0
    (by decide) (by decide) (by decide) (by decide)

/-! ### Freshness of derived metrics -/

/-- C10 counterexample: the add operation persists a `current_price`
    field into the stored document (here the stored holding carries
    `current_price = 150`), so a current price is cached in the Store,
    refuting "never cached or persisted in the Store" as stated. -/
theorem stored_current_price_persisted :
    (add_stock ⟨"AAPL", 10, 150⟩ ⟨"64b0", "alice", "alice@x.com"⟩ []
        "aaaaaaaaaaaaaaaaaaaaaaaa" 0).2 =
      [{ id := "aaaaaaaaaaaaaaaaaaaaaaaa", user_id := "64b0", stock_name := "AAPL",
         quantity := 10, buy_price := 150, current_price := 150,
         created_at := 0, updated_at := 0 }] := by
  rfl

/-- C10 (amended): the metrics returned by the read operations are always
    recomputed from the stored quantity and buy price plus a price
    freshly sampled at read time - the persisted `current_price` field is
    never consulted, so overwriting it arbitrarily changes no read
    result - and repeated reads within the same hour bucket return
    identical metrics. -/
theorem reads_recompute_metrics (user : User) (db : List Stock) (f : Stock → ℚ)
    (stock_id : String) (t1 t2 : Nat) (hb : t1 / 3600 = t2 / 3600) :
    get_all_stocks user (db.map (setStoredPrice f)) t1 = get_all_stocks user db t1 ∧
    get_stock stock_id user (db.map (setStoredPrice f)) t1 =
      get_stock stock_id user db t1 ∧
    get_all_stocks user db t1 = get_all_stocks user db t2 ∧
    get_stock stock_id user db t1 = get_stock stock_id user db t2 ∧
    (∀ r ∈ get_all_stocks user db t1, ∃ s ∈ db, s.user_id = user.id ∧
        r = stockToResponse t1 s) := by
  have hfun : ∀ s, stockToResponse t1 s = stockToResponse t2 s := by
    intro s
    have hsim := simulate_deterministic_within_bucket s.stock_name s.buy_price t1 t2 hb
    show mkStockResponse s.id s.user_id s.stock_name s.quantity s.buy_price
        (simulate_stock_price s.stock_name t1 s.buy_price)
        (calculate_stock_metrics s.quantity s.buy_price
          (simulate_stock_price s.stock_name t1 s.buy_price)) =
      mkStockResponse s.id s.user_id s.stock_name s.quantity s.buy_price
        (simulate_stock_price s.stock_name t2 s.buy_price)
        (calculate_stock_metrics s.quantity s.buy_price
          (simulate_stock_price s.stock_name t2 s.buy_price))
    rw [hsim]
  refine ⟨?_, ?_, ?_, ?_, ?_⟩
  · unfold get_all_stocks
    rw [List.filter_map, ← List.map_take, List.map_map]
    exact rfl
  · unfold get_stock
    have hf : find_one (db.map (setStoredPrice f)) stock_id user.id =
        Option.map (setStoredPrice f) (find_one db stock_id user.id) := by
      unfold find_one
      rw [List.find?_map]
      exact rfl
    rw [hf]
    cases hfo : find_one db stock_id user.id with
    | none => rfl
    | some s => rfl
  · unfold get_all_stocks
    exact List.map_congr_left (fun s _ => hfun s)
  · unfold get_stock
    cases hfo : find_one db stock_id user.id with
    | none => rfl
    | some s =>
      show (if ¬ isValidObjectId stock_id = true
          then HandlerResult.httpError 400 "Invalid stock ID format"
          else HandlerResult.ok (stockToResponse t1 s)) =
        (if ¬ isValidObjectId stock_id = true
          then HandlerResult.httpError 400 "Invalid stock ID format"
          else HandlerResult.ok (stockToResponse t2 s))
      rw [hfun s]
  · intro r hr
    unfold get_all_stocks at hr
    obtain ⟨s, hsmem, rfl⟩ := List.mem_map.mp hr
    have hsf : s ∈ db.filter (fun s => s.user_id == user.id) :=
      List.take_subset _ _ hsmem
    obtain ⟨hsdb, hpred⟩ := List.mem_filter.mp hsf
    exact ⟨s, hsdb, by simpa [beq_iff_eq] using hpred, rfl⟩

/-- C10 amended-claim witness at an empty store and times 100 and 200
    (both in hour bucket 0). -/
theorem reads_recompute_metrics_witness :
    get_all_stocks ⟨"64b0", "alice", "a@x.com"⟩
        (List.map (setStoredPrice (fun _ => 0)) []) 100 =
      get_all_stocks ⟨"64b0", "alice", "a@x.com"⟩ [] 100 ∧
    get_stock "aaaaaaaaaaaaaaaaaaaaaaaa" ⟨"64b0", "alice", "a@x.com"⟩
        (List.map (setStoredPrice (fun _ => 0)) []) 100 =
      get_stock "aaaaaaaaaaaaaaaaaaaaaaaa" ⟨"64b0", "alice", "a@x.com"⟩ [] 100 ∧
    get_all_stocks ⟨"64b0", "alice", "a@x.com"⟩ [] 100 =
      get_all_stocks ⟨"64b0", "alice", "a@x.com"⟩ [] 200 ∧
    get_stock "aaaaaaaaaaaaaaaaaaaaaaaa" ⟨"64b0", "alice", "a@x.com"⟩ [] 100 =
      get_stock "aaaaaaaaaaaaaaaaaaaaaaaa" ⟨"64b0", "alice", "a@x.com"⟩ [] 200 ∧
    (∀ r ∈ get_all_stocks ⟨"64b0", "alice", "a@x.com"⟩ [] 100,
      ∃ s ∈ ([] : List Stock), s.user_id = "64b0" ∧ r = stockToResponse 100 s) :=
  reads_recompute_metrics ⟨"64b0", "alice", "a@x.com"⟩ [] (fun _ => 0)
    "aaaaaaaaaaaaaaaaaaaaaaaa" 100 200 (by norm_num)

end Portfolio
